import Mathlib

/-!
Verification of the Ayurvedic-herb traceability prototype's ledger core.

This file shallowly embeds the blockchain-simulation service of the
repository (the backend `BlockchainService`, the lab and processor route
handlers that call into it, and the duplicate frontend
`BlockchainSimulationService`) and proves or refutes the specification
claims about it.

Conventions of the embedding:
* JS numbers that the code compares (GPS coordinates, ppm thresholds,
  moisture percentages) are modelled as rationals.
* The SHA-256 digest from the `crypto` library and `JSON.stringify` are
  external library calls; they are threaded through as an abstract
  `HashEnv` parameter (`sha256`, `stringify`).  No claim depends on the
  value of a digest, only on how the hash fields are chained.
* Wall-clock values (`Date.now()`, generated random ids) are
  nondeterministic inputs of the original code; they are passed in
  explicitly as an `Env` argument.
* `new Date(timestamp).getMonth() + 1` on a collection's harvest
  timestamp is modelled by storing that derived month (1..12) in the
  payload directly.
* Console logging is ignored; only returned values and state matter.
-/

/-- GPS coordinates of a collection event (`GPSCoordinates` in
`src/types/blockchain.ts`; `altitude` is never read by any logic). -/
structure GPSCoordinates where
  lat : ℚ
  lng : ℚ
deriving DecidableEq

/-- Collection-event payload, with the fields the core logic reads:
`id` (the batch id), `species`, `gps`, the month derived from the
harvest `timestamp`, `moisture`, and the farmer identification. -/
structure CollectionEvent where
  id : String
  species : String
  gps : GPSCoordinates
  month : Nat
  moisture : ℚ
  farmerName : String
  farmerId : String
deriving DecidableEq

/-- Derived status of a quality test (`determineTestStatus` in the lab
routes). -/
inductive TestStatus where
  | PASSED
  | PASSED_WITH_WARNINGS
  | FAILED
deriving DecidableEq

/-- Which quality threshold produced a warning.  The route builds warning
message strings; only their presence and origin matter to the claims, so
they are modelled as tags. -/
inductive Warning where
  | pesticideWarn
  | heavyMetalsWarn
  | moistureWarn
deriving DecidableEq

/-- Quality-test payload as stored on the ledger.  The lab route fills
every field; a payload submitted directly through the service may carry
arbitrary values (in JS the object is untyped).  `heavyMetals` is
optional in the interface; the route stores `value.heavyMetals || 0`. -/
structure QualityTest where
  id : String
  batchID : String
  dna : String
  pesticide : ℚ
  moisture : ℚ
  heavyMetals : Option ℚ
  labName : String
  labId : String
  verified : Bool
  status : TestStatus
  warnings : List Warning
deriving DecidableEq

/-- Status of one processing stage. -/
inductive StageStatus where
  | pending
  | inProgress
  | completed
deriving DecidableEq

/-- The three ordered processing stages. -/
inductive Step where
  | drying
  | grinding
  | packaging
deriving DecidableEq

/-- Status values a processor may submit for a stage (the route schema
only admits `in-progress` and `completed`). -/
inductive UpdStatus where
  | inProgress
  | completed
deriving DecidableEq

/-- Embed a submitted status into a stage status. -/
def UpdStatus.toStage : UpdStatus → StageStatus
  | .inProgress => .inProgress
  | .completed => .completed

/-- Processing payload as stored on the ledger (`ProcessingStep` plus the
`history` list the processor route maintains). -/
structure ProcessingStep where
  id : String
  batchID : String
  drying : StageStatus
  grinding : StageStatus
  packaging : StageStatus
  processorName : String
  processorId : String
  processDate : String
  history : List (Step × UpdStatus)
deriving DecidableEq

/-- Tagged payload union.  The backend always submits a payload matching
its type string, so type tag and payload are modelled as one sum;
`genesis` is the payload of the genesis transaction (its data object has
no batch fields). -/
inductive TxData where
  | collection (c : CollectionEvent)
  | quality_test (q : QualityTest)
  | processing (p : ProcessingStep)
  | genesis
deriving DecidableEq

/-- A committed ledger transaction (backend `submitTransaction` record). -/
structure Tx where
  id : String
  data : TxData
  timestamp : String
  hash : String
  previousHash : String
deriving DecidableEq

/-- Abstract external computations: the SHA-256 hex digest from the
`crypto` library and `JSON.stringify` on a payload object. -/
structure HashEnv where
  sha256 : String → String
  stringify : TxData → String

/-- Nondeterministic inputs of one submission: the generated transaction
id and the current wall-clock time string. -/
structure Env where
  txId : String
  now : String
deriving DecidableEq

/-- The backend ledger state: the in-memory transaction list plus the
JSON file contents written by `saveLedger` (metadata fields are constant
and never read by the logic). -/
structure Ledger where
  transactions : List Tx
  persisted : List Tx
deriving DecidableEq

deriving instance DecidableEq for Except

/-- The all-zero previous-hash sentinel used for the chain root. -/
def zeroSentinel : String :=
  "0x0000000000000000000000000000000000000000000000000000000000000000"

/-- ASCII lower-casing of one character, as `toLowerCase` acts on the
species names involved. -/
def lowerChar (c : Char) : Char :=
  if 65 ≤ c.toNat ∧ c.toNat ≤ 90 then Char.ofNat (c.toNat + 32) else c

/-- Does list `l` contain `pat` as a contiguous sublist? (JS
`String.includes`). -/
def containsSeq (pat : List Char) : List Char → Bool
  | [] => pat.isEmpty
  | c :: rest => pat.isPrefixOf (c :: rest) || containsSeq pat rest

/-- `species.toLowerCase().includes('ashwagandha')`. -/
def speciesIsAshwagandha (s : String) : Bool :=
  containsSeq "ashwagandha".toList (s.toList.map lowerChar)

/-- Result object of the smart-contract validators
(`{valid, reason?}`). -/
structure VResult where
  valid : Bool
  reason : Option String
deriving DecidableEq

/-- Is the GPS point inside the Rajasthan bounding box used for
Ashwagandha? -/
def isValidLocation (gps : GPSCoordinates) : Bool :=
  decide (24 ≤ gps.lat) && decide (gps.lat ≤ 30) &&
  decide (69 ≤ gps.lng) && decide (gps.lng ≤ 78)

/-- Is `month` inside the October-February harvest window? -/
def isValidSeason (month : Nat) : Bool :=
  decide (10 ≤ month) || decide (month ≤ 2)

/-- Smart contract: validate a collection event (`validateCollectionEvent`
in the backend service).  The geo-fence check is fatal for species
containing "ashwagandha"; the seasonal check is computed but only logged
(it never affects the returned validity). -/
def validateCollectionEvent (c : CollectionEvent) : VResult :=
  if speciesIsAshwagandha c.species && !(isValidLocation c.gps) then
    { valid := false
      reason := some "GPS coordinates outside valid cultivation region for Ashwagandha" }
  else
    { valid := true, reason := none }

/-- Smart contract: validate quality-test results (`validateQualityTest`).
`heavyMetals` participates only when truthy (`heavyMetals && ...`), which
for an optional number means: present and nonzero; a value above 0.05 is
then rejected.  A zero value is falsy and skips the check, which
coincides with the comparison being false. -/
def validateQualityTest (q : QualityTest) : VResult :=
  if q.pesticide > mkRat 1 10 then
    { valid := false, reason := some "Pesticide level exceeds WHO limit (0.1 ppm)" }
  else if (match q.heavyMetals with
           | some v => decide (v ≠ 0) && decide (v > mkRat 5 100)
           | none => false) then
    { valid := false, reason := some "Heavy metals level exceeds WHO limit (0.05 ppm)" }
  else if q.moisture < 8 ∨ q.moisture > 20 then
    { valid := false, reason := some "Moisture content outside acceptable range (8-20%)" }
  else
    { valid := true, reason := none }

/-- Does this transaction carry a quality test referencing `b`? -/
def isQualityFor (b : String) (tx : Tx) : Bool :=
  match tx.data with
  | .quality_test q => q.batchID == b
  | _ => false

/-- Smart contract: validate a processing step (`validateProcessingStep`).
It only requires that some quality-test transaction for the batch exists;
it does not inspect that test's outcome. -/
def validateProcessingStep (l : Ledger) (p : ProcessingStep) : VResult :=
  match l.transactions.find? (isQualityFor p.batchID) with
  | none => { valid := false, reason := some "Cannot process batch without quality verification" }
  | some _ => { valid := true, reason := none }

/-- Dispatch validation on the transaction type (`validateTransaction`);
the `genesis` type falls into the permissive default branch. -/
def validateTransaction (l : Ledger) (d : TxData) : VResult :=
  match d with
  | .collection c => validateCollectionEvent c
  | .quality_test q => validateQualityTest q
  | .processing p => validateProcessingStep l p
  | .genesis => { valid := true, reason := none }

/-- Hash of the last element of a transaction list; the zero sentinel for
an empty list. -/
def lastHash : List Tx → String
  | [] => zeroSentinel
  | [t] => t.hash
  | _ :: t :: rest => lastHash (t :: rest)

/-- `getLastTransactionHash`: hash of the most recent ledger transaction,
used as the chain link of the next one. -/
def getLastTransactionHash (l : Ledger) : String :=
  lastHash l.transactions

/-- `saveLedger`: flush the in-memory transaction list to the ledger
file. -/
def saveLedger (l : Ledger) : Ledger :=
  { l with persisted := l.transactions }

/-- The transaction object `submitTransaction` builds before validating:
`hash = sha256(JSON.stringify(data) + txId)`, `previousHash` = hash of
the current last transaction. -/
def mkTx (he : HashEnv) (env : Env) (l : Ledger) (d : TxData) : Tx :=
  { id := env.txId
    data := d
    timestamp := env.now
    hash := he.sha256 (he.stringify d ++ env.txId)
    previousHash := getLastTransactionHash l }

/-- Receipt returned by a successful `submitTransaction`. -/
structure SubmitReceipt where
  transactionId : String
  status : String
  hash : String
  timestamp : String
deriving DecidableEq

/-- `submitTransaction`: build the transaction, validate it, and on
success append it and persist; on validation failure throw (modelled as
an `Except.error` carrying the thrown message) leaving the ledger
untouched. -/
def submitTransaction (he : HashEnv) (env : Env) (l : Ledger) (d : TxData) :
    Ledger × Except String SubmitReceipt :=
  let tx := mkTx he env l d
  let validation := validateTransaction l d
  if validation.valid then
    let l' := saveLedger { l with transactions := l.transactions ++ [tx] }
    (l', .ok { transactionId := env.txId, status := "COMMITTED",
               hash := tx.hash, timestamp := env.now })
  else
    (l, .error ("Transaction validation failed: " ++ validation.reason.getD ""))

/-- The genesis transaction created for a fresh ledger
(`createGenesisBlock`). -/
def createGenesisBlock (he : HashEnv) (now : String) : Tx :=
  { id := "tx_genesis_000"
    data := .genesis
    timestamp := now
    hash := he.sha256 "genesis_block_sih25027"
    previousHash := zeroSentinel }

/-- A freshly initialized ledger (`initialize` on a missing ledger file:
create the genesis block, then persist). -/
def initializedLedger (he : HashEnv) (now : String) : Ledger :=
  saveLedger { transactions := [createGenesisBlock he now], persisted := [] }

/-- Run a sequence of `submitTransaction` calls; a call whose validation
fails leaves the ledger unchanged (the thrown error is caught by the
caller). -/
def runSubmits (he : HashEnv) (l : Ledger) (ops : List (Env × TxData)) : Ledger :=
  ops.foldl (fun acc op => (submitTransaction he op.1 acc op.2).1) l

/-- Does this transaction reference batch `b`: a collection transaction
matches on its `data.id`, every other type on its `data.batchID`
(the genesis payload has neither field, so it never matches). -/
def matchesBatch (b : String) (tx : Tx) : Bool :=
  match tx.data with
  | .collection c => c.id == b
  | .quality_test q => q.batchID == b
  | .processing p => p.batchID == b
  | .genesis => false

/-- Is this a collection transaction? -/
def isCollectionTx (tx : Tx) : Bool :=
  match tx.data with
  | .collection _ => true
  | _ => false

/-- Is this a quality-test transaction? -/
def isQualityTx (tx : Tx) : Bool :=
  match tx.data with
  | .quality_test _ => true
  | _ => false

/-- Is this a processing transaction? -/
def isProcessingTx (tx : Tx) : Bool :=
  match tx.data with
  | .processing _ => true
  | _ => false

/-- Extract a collection payload. -/
def collData : Tx → Option CollectionEvent
  | { data := .collection c, .. } => some c
  | _ => none

/-- Extract a quality-test payload. -/
def qualData : Tx → Option QualityTest
  | { data := .quality_test q, .. } => some q
  | _ => none

/-- Extract a processing payload. -/
def procData : Tx → Option ProcessingStep
  | { data := .processing p, .. } => some p
  | _ => none

/-- `generateQRData`: customer-verification URL for a batch (default
`API_BASE_URL`). -/
def generateQRData (b : String) : String :=
  "http://localhost:5000/api/customer/batch/" ++ b

/-- Provenance bundle assembled by the backend `getProvenance`
(`lastUpdated`, a wall-clock echo, is omitted). -/
structure ProvenanceBundle where
  batchID : String
  farmer : Option CollectionEvent
  lab : Option QualityTest
  processor : Option ProcessingStep
  qrCode : String
  isVerified : Bool
  blockchainHash : Option String
  transactionCount : Nat
deriving DecidableEq

instance : Inhabited ProvenanceBundle :=
  ⟨{ batchID := "", farmer := none, lab := none, processor := none,
     qrCode := "", isVerified := false, blockchainHash := none,
     transactionCount := 0 }⟩

/-- Backend `getProvenance`: filter the log down to the transactions that
reference `b`; return `null` when none does, otherwise fold the first
collection, first quality-test and first processing transaction of that
filtered list into a bundle. -/
def getProvenance (l : Ledger) (b : String) : Option ProvenanceBundle :=
  let txs := l.transactions.filter (matchesBatch b)
  if txs.isEmpty then none
  else
    let collectionTx := txs.find? isCollectionTx
    let qualityTx := txs.find? isQualityTx
    let processingTx := txs.find? isProcessingTx
    some { batchID := b
           farmer := collectionTx.bind collData
           lab := qualityTx.bind qualData
           processor := processingTx.bind procData
           qrCode := generateQRData b
           isVerified := qualityTx.isSome && processingTx.isSome
           blockchainHash := collectionTx.map Tx.hash
           transactionCount := txs.length }

/-- Errors a route handler can answer with: 400 with a Joi or rule
message, 404, or 500 when an exception from the service bubbles up. -/
inductive RErr where
  | badRequest (msg : String)
  | notFound (msg : String)
  | serverError (msg : String)
deriving DecidableEq

/-- Is `c` allowed after the `BATCH_` prefix of a batch id? -/
def batchChar (c : Char) : Bool :=
  (decide ('A' ≤ c) && decide (c ≤ 'Z')) ||
  (decide ('0' ≤ c) && decide (c ≤ '9')) || c == '_'

/-- The Joi pattern on batch ids used by the lab and processor routes. -/
def batchIdPattern (s : String) : Bool :=
  match s.toList with
  | 'B' :: 'A' :: 'T' :: 'C' :: 'H' :: '_' :: rest => !rest.isEmpty && rest.all batchChar
  | _ => false

/-- The quality-test upload request body, with the fields the Joi schema
constrains and the handler reads (`testDate` and `notes` are free-form
echoes and are omitted). -/
structure LabUploadReq where
  batchID : String
  dna : String
  pesticide : ℚ
  moisture : ℚ
  heavyMetals : Option ℚ
  labName : String
  labId : String
deriving DecidableEq

/-- The Joi `qualityTestSchema` of the lab upload route. -/
def labSchemaOk (p : LabUploadReq) : Bool :=
  batchIdPattern p.batchID &&
  decide (10 ≤ p.dna.length) && decide (p.dna.length ≤ 1000) &&
  decide (0 ≤ p.pesticide) && decide (p.pesticide ≤ 10) &&
  decide (0 ≤ p.moisture) && decide (p.moisture ≤ 100) &&
  (match p.heavyMetals with
   | some v => decide (0 ≤ v) && decide (v ≤ 1)
   | none => true) &&
  decide (5 ≤ p.labName.length) && decide (p.labName.length ≤ 200) &&
  decide (3 ≤ p.labId.length) && decide (p.labId.length ≤ 50)

/-- Result of `determineTestStatus`. -/
structure TestOutcome where
  passed : Bool
  status : TestStatus
  warnings : List Warning
deriving DecidableEq

/-- `determineTestStatus` of the lab routes: collect warnings against the
WHO/FDA standards, failing outright on a pesticide or heavy-metals breach
or on moisture below 5 or above 25; moisture merely outside [8, 20] only
warns.  An absent heavy-metals value skips that check (JS comparison with
`undefined` is false). -/
def determineTestStatus (t : LabUploadReq) : TestOutcome :=
  let s1 : List Warning × Bool :=
    if t.pesticide > mkRat 1 10 then ([.pesticideWarn], false) else ([], true)
  let s2 : List Warning × Bool :=
    if t.heavyMetals.elim false (fun v => decide (v > mkRat 5 100)) = true then
      (s1.1 ++ [.heavyMetalsWarn], false)
    else s1
  let s3 : List Warning × Bool :=
    if t.moisture < 8 ∨ t.moisture > 20 then
      (s2.1 ++ [.moistureWarn], if t.moisture < 5 ∨ t.moisture > 25 then false else s2.2)
    else s2
  let status :=
    if s3.2 ∧ s3.1.isEmpty then TestStatus.PASSED
    else if s3.2 then TestStatus.PASSED_WITH_WARNINGS
    else TestStatus.FAILED
  { passed := s3.2, status := status, warnings := s3.1 }

/-- Successful response body of the lab upload route. -/
structure LabResp where
  testID : String
  transactionId : String
  hash : String
  status : TestStatus
  passed : Bool
deriving DecidableEq

/-- The lab `POST /upload` handler: Joi-validate the body, require the
batch to exist as a collection event (via `getProvenance`: reject with
404 "Batch not found" when the bundle is absent or has no farmer),
derive the test status, and submit the quality test to the blockchain
service; an exception from the service becomes a 500 response. -/
def labUpload (he : HashEnv) (env : Env) (testId : String) (l : Ledger)
    (p : LabUploadReq) : Ledger × Except RErr LabResp :=
  if !labSchemaOk p then (l, .error (.badRequest "Validation failed"))
  else
    let farmerOk := match getProvenance l p.batchID with
      | none => false
      | some prov => prov.farmer.isSome
    if !farmerOk then (l, .error (.notFound "Batch not found"))
    else
      let ts := determineTestStatus p
      let qt : QualityTest :=
        { id := testId, batchID := p.batchID, dna := p.dna
          pesticide := p.pesticide, moisture := p.moisture
          heavyMetals := some (p.heavyMetals.getD 0)
          labName := p.labName, labId := p.labId
          verified := ts.passed, status := ts.status, warnings := ts.warnings }
      match submitTransaction he env l (.quality_test qt) with
      | (l', .ok r) =>
          (l', .ok { testID := testId, transactionId := r.transactionId,
                     hash := r.hash, status := ts.status, passed := ts.passed })
      | (l', .error e) => (l', .error (.serverError e))

/-- The processing status-update request body (`notes` is a free-form
echo and is omitted; `step` and `status` carry their Joi `valid(...)`
enumerations in their types). -/
structure UpdateReq where
  batchID : String
  step : Step
  status : UpdStatus
  processorId : String
  processorName : String
deriving DecidableEq

/-- The Joi `updateStatusSchema`: the only constraint not already
enforced by the field types is the batch-id pattern. -/
def updSchemaOk (r : UpdateReq) : Bool :=
  batchIdPattern r.batchID

/-- Display name of a stage, as interpolated into route messages. -/
def stepName : Step → String
  | .drying => "drying"
  | .grinding => "grinding"
  | .packaging => "packaging"

/-- Predecessor in the `stepOrder` array `[drying, grinding, packaging]`. -/
def predStep : Step → Option Step
  | .drying => none
  | .grinding => some .drying
  | .packaging => some .grinding

/-- Read one stage field of a processing record. -/
def stageOf (ps : ProcessingStep) : Step → StageStatus
  | .drying => ps.drying
  | .grinding => ps.grinding
  | .packaging => ps.packaging

/-- Write one stage field of a processing record. -/
def setStage (ps : ProcessingStep) : Step → StageStatus → ProcessingStep
  | .drying, v => { ps with drying := v }
  | .grinding, v => { ps with grinding := v }
  | .packaging, v => { ps with packaging := v }

/-- The fresh processing record the route creates when the batch has no
processing state yet: every stage `pending`. -/
def freshProcessing (newProcId : String) (env : Env) (r : UpdateReq) : ProcessingStep :=
  { id := newProcId, batchID := r.batchID
    drying := .pending, grinding := .pending, packaging := .pending
    processorName := r.processorName, processorId := r.processorId
    processDate := env.now, history := [] }

/-- Are all three stages completed? -/
def isProcessingComplete (ps : ProcessingStep) : Bool :=
  ps.drying == .completed && ps.grinding == .completed && ps.packaging == .completed

/-- Successful response body of the status-update route. -/
structure UpdateResp where
  transactionId : String
  hash : String
  processing : ProcessingStep
  isComplete : Bool
deriving DecidableEq

/-- The processor `POST /update-status` handler: Joi-validate, 404 when
the batch has no provenance, 400 when the bundle's quality test is
missing or not verified, 400 citing the predecessor stage when the step
ordering drying before grinding before packaging is violated against the
processing state the route reads (the bundle's processing record, or a
fresh all-pending one), otherwise apply the update and submit it. -/
def updateStatus (he : HashEnv) (env : Env) (newProcId : String) (l : Ledger)
    (r : UpdateReq) : Ledger × Except RErr UpdateResp :=
  if !updSchemaOk r then (l, .error (.badRequest "Validation failed"))
  else
    match getProvenance l r.batchID with
    | none => (l, .error (.notFound "Batch not found"))
    | some prov =>
      if !(match prov.lab with | some q => q.verified | none => false) then
        (l, .error (.badRequest "Cannot process batch without quality verification"))
      else
        let ps := prov.processor.getD (freshProcessing newProcId env r)
        match predStep r.step with
        | some prev =>
          if stageOf ps prev ≠ StageStatus.completed then
            (l, .error (.badRequest
              ("Cannot start " ++ stepName r.step ++ " before completing " ++ stepName prev)))
          else
            updStatusCommit he env l r ps
        | none => updStatusCommit he env l r ps
where
  /-- Shared tail of the handler: write the stage, extend the history and
  submit the updated record as a `processing` transaction. -/
  updStatusCommit (he : HashEnv) (env : Env) (l : Ledger) (r : UpdateReq)
      (ps : ProcessingStep) : Ledger × Except RErr UpdateResp :=
    let ps' := { setStage ps r.step r.status.toStage with
                 history := ps.history ++ [(r.step, r.status)] }
    match submitTransaction he env l (.processing ps') with
    | (l', .ok rcp) =>
        (l', .ok { transactionId := rcp.transactionId, hash := rcp.hash,
                   processing := ps', isComplete := isProcessingComplete ps' })
    | (l', .error e) => (l', .error (.serverError e))

namespace Frontend

/-- Transaction type tags of the frontend `BlockchainTransaction`. -/
inductive TxType where
  | collection
  | quality_test
  | processing
  | verification
deriving DecidableEq, BEq

/-- A frontend transaction.  Type tag and payload are independent fields,
exactly as in the TypeScript interface, where nothing ties `type` to the
shape of `data`. -/
structure FTx where
  id : String
  type : TxType
  data : TxData
  timestamp : String
  hash : String
  previousHash : String
deriving DecidableEq

/-- Frontend `BlockchainState` (`blocks` is never read or written by the
service logic). -/
structure FState where
  transactions : List FTx
deriving DecidableEq

/-- Reading `.id` off a payload object: every payload variant of the
frontend union carries an `id` property (the genesis variant exists only
in the backend and has none). -/
def dataId : TxData → Option String
  | .collection c => some c.id
  | .quality_test q => some q.id
  | .processing p => some p.id
  | .genesis => none

/-- Reading `.batchID` off a payload object: only quality tests and
processing steps have one; on the other variants the access yields
`undefined`, which compares unequal to every batch id string. -/
def batchRef : TxData → Option String
  | .quality_test q => some q.batchID
  | .processing p => some p.batchID
  | _ => none

/-- The 32-bit-wrapping accumulator step of `generateHash`:
`hash = ((hash << 5) - hash) + charCode; hash = hash & hash` with JS
int32 semantics. -/
def jsHashStep (h : Int) (c : Nat) : Int :=
  wrap32 (wrap32 (h * 32) - h + c)
where
  /-- Reduce an integer to JS 32-bit two's-complement range. -/
  wrap32 (x : Int) : Int := ((x + 2 ^ 31) % 2 ^ 32) - 2 ^ 31

/-- Frontend `generateHash`: fold the rolling hash over the string and
print the absolute value in hex. -/
def generateHash (s : String) : String :=
  String.mk (Nat.toDigits 16 (s.toList.foldl (fun h c => jsHashStep h c.toNat) 0).natAbs)

/-- Frontend chain link: hash of the last transaction, `"0x000"` for an
empty log. -/
def getLastTransactionHash (st : FState) : String :=
  match st.transactions.getLast? with
  | some t => t.hash
  | none => "0x000"

/-- Frontend `submitTransaction`: build the transaction and push it —
there is no validation of any kind; `stringify` abstracts
`JSON.stringify`.  Returns the new state and the generated id. -/
def submitTransaction (stringify : TxData → String) (env : Env) (st : FState)
    (ty : TxType) (d : TxData) : FState × String :=
  let tx : FTx :=
    { id := env.txId, type := ty, data := d, timestamp := env.now
      hash := generateHash (stringify d)
      previousHash := getLastTransactionHash st }
  ({ transactions := st.transactions ++ [tx] }, tx.id)

/-- Frontend `validateGeoFence` (simulated chaincode; the frontend
`submitTransaction` never calls it). -/
def validateGeoFence (gps : GPSCoordinates) (species : String) : Bool :=
  if speciesIsAshwagandha species then isValidLocation gps else true

/-- Frontend `validateSeason` (also never called on the submit path). -/
def validateSeason (month : Nat) (species : String) : Bool :=
  if speciesIsAshwagandha species then isValidSeason month else true

/-- Frontend provenance bundle; `farmer` and the optional `lab` and
`processor` carry the raw payloads (the TypeScript code casts them
unchecked). -/
structure FBundle where
  batchID : String
  farmer : TxData
  lab : Option TxData
  processor : Option TxData
  qrCode : String
  isVerified : Bool
deriving DecidableEq

/-- Frontend `getProvenance`: find the first collection-typed transaction
whose payload `id` is `b`; without one return `null`; the lab and
processor slots take the first quality-test-typed and processing-typed
transactions whose payload `batchID` is `b`.  `now` models the
`Date.now()` suffix of the QR string. -/
def getProvenance (st : FState) (b : String) (now : String) : Option FBundle :=
  let collectionTx := st.transactions.find? fun tx =>
    tx.type == TxType.collection && dataId tx.data == some b
  let qualityTx := st.transactions.find? fun tx =>
    tx.type == TxType.quality_test && batchRef tx.data == some b
  let processingTx := st.transactions.find? fun tx =>
    tx.type == TxType.processing && batchRef tx.data == some b
  match collectionTx with
  | none => none
  | some ctx =>
    some { batchID := b
           farmer := ctx.data
           lab := qualityTx.map FTx.data
           processor := processingTx.map FTx.data
           qrCode := "HERB_TRACE_" ++ b ++ "_" ++ now
           isVerified := qualityTx.isSome && processingTx.isSome }

end Frontend

/-- Is the route result an error response? -/
def isErr {ε α : Type} : Except ε α → Bool
  | .error _ => true
  | .ok _ => false

/-- Does this transaction carry a collection event with identifier `b`? -/
def isCollectionFor (b : String) (tx : Tx) : Bool :=
  match tx.data with
  | .collection c => c.id == b
  | _ => false

/-- Does this transaction carry a quality test for `b` whose stored
`verified` flag is set (i.e. whose derived status is a passing one)? -/
def isPassingQualityFor (b : String) (tx : Tx) : Bool :=
  match tx.data with
  | .quality_test q => q.batchID == b && q.verified
  | _ => false

/-- The processing state the status-update route validates a request
against: the bundle's processing record if the batch has one, otherwise
the fresh all-pending record. -/
def routeProcState (newProcId : String) (env : Env) (l : Ledger) (r : UpdateReq) :
    ProcessingStep :=
  match getProvenance l r.batchID with
  | some prov => prov.processor.getD (freshProcessing newProcId env r)
  | none => freshProcessing newProcId env r

/-- Does the route's quality gate pass for batch `b`: the provenance
bundle exists and its quality test is verified? -/
def qualityGateOk (l : Ledger) (b : String) : Bool :=
  match getProvenance l b with
  | some prov => match prov.lab with
    | some q => q.verified
    | none => false
  | none => false

/-! Concrete fixtures used by witnesses and counterexamples.  The hash
environment resolves the external SHA-256 and `JSON.stringify` calls to
constants; no claim depends on digest values. -/

/-- A concrete hash environment for evaluation. -/
def heC : HashEnv := { sha256 := fun _ => "H", stringify := fun _ => "S" }

/-- Concrete submission environments. -/
def env1 : Env := { txId := "tx1", now := "t1" }

/-- Second submission environment. -/
def env2 : Env := { txId := "tx2", now := "t2" }

/-- Third submission environment. -/
def env3 : Env := { txId := "tx3", now := "t3" }

/-- A freshly initialized concrete ledger (genesis only). -/
def ledger0 : Ledger := initializedLedger heC "t0"

/-- A collection event for a non-geofenced species. -/
def cTulsi : CollectionEvent :=
  { id := "BATCH_TUL_1", species := "Tulsi", gps := { lat := 20, lng := 20 },
    month := 5, moisture := 12, farmerName := "Farmer", farmerId := "F1" }

/-- An Ashwagandha collection inside the Rajasthan bounding box, with an
out-of-season harvest month (May). -/
def cAsh : CollectionEvent :=
  { id := "BATCH_ASH_001", species := "Ashwagandha",
    gps := { lat := mkRat 269124 10000, lng := mkRat 757873 10000 },
    month := 5, moisture := mkRat 125 10, farmerName := "Ram", farmerId := "F1" }

/-- An Ashwagandha collection outside the bounding box. -/
def cAshBad : CollectionEvent :=
  { id := "BATCH_ASH_002", species := "Ashwagandha",
    gps := { lat := 10, lng := 10 },
    month := 1, moisture := mkRat 125 10, farmerName := "Ram", farmerId := "F1" }

/-- C7 theorem: for a species containing "ashwagandha", collection
validation fails exactly when the GPS point is outside the lat [24, 30],
lng [69, 78] bounding box, and the outcome never depends on the harvest
month (the seasonal check is only logged as a warning, never fatal). -/
theorem c7_geofence_fatal_season_advisory (c : CollectionEvent)
    (hsp : speciesIsAshwagandha c.species = true) :
    ((validateCollectionEvent c).valid = false ↔ isValidLocation c.gps = false) ∧
    (∀ m : Nat, validateCollectionEvent { c with month := m } = validateCollectionEvent c) := by
  constructor
  · unfold validateCollectionEvent
    rw [hsp]
    cases hv : isValidLocation c.gps <;> simp [hv]
  · intro m
    rfl

/-- C7 witness: species "Ashwagandha" at GPS (10.0, 10.0) is rejected
(via the theorem), the same species at (26.9124, 75.7873) with an
out-of-season harvest month is accepted, and that month (May) is indeed
outside the October-February window. -/
theorem c7_geofence_witness :
    (validateCollectionEvent cAshBad).valid = false ∧
    (validateCollectionEvent cAsh).valid = true ∧
    isValidSeason cAsh.month = false :=
  ⟨(c7_geofence_fatal_season_advisory cAshBad (by decide)).1.mpr (by decide),
   by decide, by decide⟩

/-- A ledger holding the genesis block and the in-region Ashwagandha
collection, reached by one successful submission. -/
def ledgerAsh : Ledger := runSubmits heC ledger0 [(env1, .collection cAsh)]

/-- The quality-test upload of the claim's passing example:
pesticide 0.03 ppm, heavy metals 0.01 ppm, moisture 12.5 %. -/
def labReqGood : LabUploadReq :=
  { batchID := "BATCH_ASH_001", dna := "ATCGATCGATCG",
    pesticide := mkRat 3 100, moisture := mkRat 125 10,
    heavyMetals := some (mkRat 1 100),
    labName := "Ayurveda Labs", labId := "LAB_1" }

/-- The same upload with pesticide 0.2 ppm. -/
def labReqFail : LabUploadReq :=
  { labReqGood with pesticide := mkRat 2 10 }

/-- C8 counterexample: the derived status of the pesticide-0.2 test is
FAILED as claimed, but such a test can NOT be recorded: the service's
`validateQualityTest` rejects any pesticide above 0.1 ppm, so the upload
route answers 500 with the thrown validation message and the ledger is
unchanged.  This refutes the claim's final clause that the test "can
still be recorded with that derived status". -/
theorem c8_failed_test_not_recorded :
    (determineTestStatus labReqFail).status = TestStatus.FAILED ∧
    labUpload heC env2 "TEST_1" ledgerAsh labReqFail =
      (ledgerAsh, .error (.serverError
        "Transaction validation failed: Pesticide level exceeds WHO limit (0.1 ppm)")) := by
  decide

/-- C8 theorem (amended): the derived-status function behaves as claimed
on both inputs — PASSED with no warnings for (0.03, 0.01, 12.5), FAILED
for pesticide 0.2 — but the failing test is not recordable through the
backend: uploading it appends nothing and produces an error response. -/
theorem c8_status_derivation :
    determineTestStatus labReqGood =
      { passed := true, status := TestStatus.PASSED, warnings := [] } ∧
    (determineTestStatus labReqFail).status = TestStatus.FAILED ∧
    (labUpload heC env2 "TEST_1" ledgerAsh labReqFail).1.transactions = ledgerAsh.transactions ∧
    isErr (labUpload heC env2 "TEST_1" ledgerAsh labReqFail).2 = true := by
  decide

/-- C9 theorem: `submitTransaction` is atomic.  On success the new
in-memory log is exactly the old one with the one built transaction
appended at the end (so every previously committed transaction is
untouched) and the persisted file equals the new log; on failure the
returned error carries the validator's reason prefixed exactly as the
thrown message, the validation verdict was indeed negative, and the
ledger — in memory and as persisted — is exactly the ledger before the
call. -/
theorem c9_submit_atomic :
    (∀ (he : HashEnv) (env : Env) (l l' : Ledger) (d : TxData) (r : SubmitReceipt),
       submitTransaction he env l d = (l', Except.ok r) →
       l'.transactions = l.transactions ++ [mkTx he env l d] ∧
       l'.persisted = l'.transactions) ∧
    (∀ (he : HashEnv) (env : Env) (l l' : Ledger) (d : TxData) (e : String),
       submitTransaction he env l d = (l', Except.error e) →
       l' = l ∧ (validateTransaction l d).valid = false ∧
       e = "Transaction validation failed: " ++ (validateTransaction l d).reason.getD "") := by
  constructor
  · intro he env l l' d r h
    simp only [submitTransaction] at h
    split at h
    · simp only [Prod.mk.injEq, Except.ok.injEq] at h
      obtain ⟨h1, _⟩ := h
      subst h1
      exact ⟨rfl, rfl⟩
    · simp at h
  · intro he env l l' d e h
    simp only [submitTransaction] at h
    split at h
    · simp at h
    · rename_i hv
      simp only [Prod.mk.injEq, Except.error.injEq] at h
      obtain ⟨h1, h2⟩ := h
      subst h1
      exact ⟨rfl, by simpa using hv, h2.symm⟩

/-- The transaction appended by the successful witness submission. -/
def txTulsi : Tx := mkTx heC env1 ledger0 (.collection cTulsi)

/-- The ledger after the witness submission. -/
def ledgerTulsi : Ledger :=
  { transactions := ledger0.transactions ++ [txTulsi]
    persisted := ledger0.transactions ++ [txTulsi] }

/-- C9 witness: a concrete successful submission (a Tulsi collection on
the fresh ledger) appends exactly its transaction, and a concrete
failing submission (the out-of-region Ashwagandha collection) is indeed
reported invalid by the validator while the ledger is returned
unchanged. -/
theorem c9_submit_atomic_witness :
    (ledgerTulsi.transactions = ledger0.transactions ++ [mkTx heC env1 ledger0 (.collection cTulsi)] ∧
     ledgerTulsi.persisted = ledgerTulsi.transactions) ∧
    (validateTransaction ledger0 (.collection cAshBad)).valid = false :=
  ⟨c9_submit_atomic.1 heC env1 ledger0 ledgerTulsi (.collection cTulsi)
      { transactionId := "tx1", status := "COMMITTED", hash := "H", timestamp := "t1" }
      (by decide),
   (c9_submit_atomic.2 heC env1 ledger0 ledger0 (.collection cAshBad)
      "Transaction validation failed: GPS coordinates outside valid cultivation region for Ashwagandha"
      (by decide)).2.1⟩

/-- Chain-correctness of a transaction list relative to the previous
hash expected at its head: each transaction's `previousHash` equals the
`hash` of its predecessor, and the head's equals `exp`. -/
def chainOk : String → List Tx → Prop
  | _, [] => True
  | exp, t :: rest => t.previousHash = exp ∧ chainOk t.hash rest

/-- Hash of the last transaction, threading the expected hash for the
empty case; `lastHashExp exp txs` is the hash the next appended
transaction must link to. -/
def lastHashExp (exp : String) : List Tx → String
  | [] => exp
  | t :: rest => lastHashExp t.hash rest

theorem lastHashExp_eq_lastHash :
    ∀ (txs : List Tx) (exp : String), txs ≠ [] → lastHashExp exp txs = lastHash txs := by
  intro txs
  induction txs with
  | nil => intro exp h; exact absurd rfl h
  | cons t rest ih =>
    intro exp _
    cases rest with
    | nil => rfl
    | cons u rest' =>
      show lastHashExp t.hash (u :: rest') = lastHash (u :: rest')
      exact ih t.hash (by simp)

theorem chainOk_append {t : Tx} :
    ∀ (txs : List Tx) (exp : String), chainOk exp txs →
      t.previousHash = lastHashExp exp txs → chainOk exp (txs ++ [t]) := by
  intro txs
  induction txs with
  | nil => intro exp _ hlink; exact ⟨hlink, trivial⟩
  | cons u rest ih =>
    intro exp hc hlink
    exact ⟨hc.1, ih u.hash hc.2 hlink⟩

theorem getLastTransactionHash_eq (l : Ledger) :
    getLastTransactionHash l = lastHashExp zeroSentinel l.transactions := by
  unfold getLastTransactionHash
  cases h : l.transactions with
  | nil => rfl
  | cons t rest => exact (lastHashExp_eq_lastHash (t :: rest) zeroSentinel (by simp)).symm

theorem chainOk_submit (he : HashEnv) (env : Env) (l : Ledger) (d : TxData)
    (h : chainOk zeroSentinel l.transactions) :
    chainOk zeroSentinel (submitTransaction he env l d).1.transactions := by
  simp only [submitTransaction]
  split
  · show chainOk zeroSentinel
      (saveLedger { l with transactions := l.transactions ++ [mkTx he env l d] }).transactions
    refine chainOk_append l.transactions zeroSentinel h ?_
    show getLastTransactionHash l = lastHashExp zeroSentinel l.transactions
    exact getLastTransactionHash_eq l
  · exact h

theorem chainOk_runSubmits (he : HashEnv) :
    ∀ (ops : List (Env × TxData)) (l : Ledger),
      chainOk zeroSentinel l.transactions →
      chainOk zeroSentinel (runSubmits he l ops).transactions := by
  intro ops
  induction ops with
  | nil => intro l h; exact h
  | cons op rest ih =>
    intro l h
    exact ih (submitTransaction he op.1 l op.2).1 (chainOk_submit he op.1 l op.2 h)

theorem chainOk_get_zero :
    ∀ {txs : List Tx} {exp : String}, chainOk exp txs →
      ∀ h0 : 0 < txs.length, (txs.get ⟨0, h0⟩).previousHash = exp := by
  intro txs exp hc h0
  cases txs with
  | nil => simp at h0
  | cons t rest => exact hc.1

theorem chainOk_get_succ :
    ∀ (txs : List Tx) (exp : String) (i : Nat) (h : i + 1 < txs.length),
      chainOk exp txs →
      (txs.get ⟨i + 1, h⟩).previousHash = (txs.get ⟨i, Nat.lt_of_succ_lt h⟩).hash := by
  intro txs
  induction txs with
  | nil => intro exp i h; simp at h
  | cons t rest ih =>
    intro exp i h hc
    cases i with
    | zero =>
      have h0 : 0 < rest.length := by simpa using Nat.lt_of_succ_lt_succ h
      exact chainOk_get_zero hc.2 h0
    | succ j =>
      exact ih t.hash j (Nat.lt_of_succ_lt_succ h) hc.2

/-- A ledger reachable from a fresh initialization by any sequence of
submissions (submissions whose validation fails leave the state
unchanged, so this also covers exactly the states reachable through
successful calls). -/
def reachableLedger (he : HashEnv) (now : String) (ops : List (Env × TxData)) : Ledger :=
  runSubmits he (initializedLedger he now) ops

/-- C1 theorem: on every ledger reachable by submissions from a fresh
initialization, the transaction at position 0 (the genesis transaction)
carries the all-zero sentinel as its `previousHash`, and the transaction
at every later position `i+1` carries exactly the `hash` of the
transaction at position `i`. -/
theorem c1_hash_chain (he : HashEnv) (now : String) (ops : List (Env × TxData)) :
    (∀ h0 : 0 < (reachableLedger he now ops).transactions.length,
       ((reachableLedger he now ops).transactions.get ⟨0, h0⟩).previousHash = zeroSentinel) ∧
    (∀ (i : Nat) (h : i + 1 < (reachableLedger he now ops).transactions.length),
       ((reachableLedger he now ops).transactions.get ⟨i + 1, h⟩).previousHash =
       ((reachableLedger he now ops).transactions.get ⟨i, Nat.lt_of_succ_lt h⟩).hash) := by
  have hinit : chainOk zeroSentinel (initializedLedger he now).transactions :=
    ⟨rfl, trivial⟩
  have hinv : chainOk zeroSentinel (reachableLedger he now ops).transactions :=
    chainOk_runSubmits he ops (initializedLedger he now) hinit
  exact ⟨fun h0 => chainOk_get_zero hinv h0,
         fun i h => chainOk_get_succ _ zeroSentinel i h hinv⟩

/-- The one-submission history used by the C1 witness. -/
def opsC1 : List (Env × TxData) := [(env1, .collection cTulsi)]

/-- C1 witness: on the concrete two-transaction ledger built by one
successful submission after initialization, position 1 links to the hash
of position 0, and position 0 (genesis) carries the zero sentinel. -/
theorem c1_hash_chain_witness :
    ((reachableLedger heC "t0" opsC1).transactions.get ⟨0, by decide⟩).previousHash =
      zeroSentinel ∧
    ((reachableLedger heC "t0" opsC1).transactions.get ⟨1, by decide⟩).previousHash =
      ((reachableLedger heC "t0" opsC1).transactions.get ⟨0, by decide⟩).hash :=
  ⟨(c1_hash_chain heC "t0" opsC1).1 (by decide),
   (c1_hash_chain heC "t0" opsC1).2 0 (by decide)⟩

theorem getProvenance_none_iff (l : Ledger) (b : String) :
    getProvenance l b = none ↔ l.transactions.filter (matchesBatch b) = [] := by
  unfold getProvenance
  by_cases h : (l.transactions.filter (matchesBatch b)).isEmpty
  · rw [if_pos h]
    simpa using List.isEmpty_iff.mp h
  · rw [if_neg h]
    simp only [reduceCtorEq, false_iff]
    intro hc
    exact h (by simp [hc])

theorem getProvenance_some_fields {l : Ledger} {b : String} {prov : ProvenanceBundle}
    (h : getProvenance l b = some prov) :
    prov.farmer = ((l.transactions.filter (matchesBatch b)).find? isCollectionTx).bind collData ∧
    prov.lab = ((l.transactions.filter (matchesBatch b)).find? isQualityTx).bind qualData ∧
    prov.processor = ((l.transactions.filter (matchesBatch b)).find? isProcessingTx).bind procData := by
  simp only [getProvenance] at h
  split at h
  · exact absurd h (by simp)
  · simp only [Option.some.injEq] at h
    subst h
    exact ⟨rfl, rfl, rfl⟩

/-- C2 theorem (amended): the backend `getProvenance` returns NotFound
exactly when NO transaction of any type references the batch id — not
merely when no Collection does — while the frontend service's
`getProvenance` returns NotFound exactly when no collection-typed
transaction carries that id.  For a batch id appearing in no transaction
at all, both therefore return NotFound rather than an empty bundle. -/
theorem c2_notfound_characterization (l : Ledger) (st : Frontend.FState) (b now : String) :
    (getProvenance l b = none ↔ ∀ tx ∈ l.transactions, matchesBatch b tx = false) ∧
    (Frontend.getProvenance st b now = none ↔
      ∀ tx ∈ st.transactions,
        (tx.type == Frontend.TxType.collection && Frontend.dataId tx.data == some b) = false) := by
  constructor
  · rw [getProvenance_none_iff, List.filter_eq_nil_iff]
    simp [Bool.not_eq_true]
  · unfold Frontend.getProvenance
    cases hf : st.transactions.find? (fun tx =>
        tx.type == Frontend.TxType.collection && Frontend.dataId tx.data == some b) with
    | none =>
      simp only [hf]
      simpa [Bool.not_eq_true] using List.find?_eq_none.mp hf
    | some ctx =>
      simp only [hf, reduceCtorEq, false_iff, not_forall]
      refine ⟨ctx, List.mem_of_find?_eq_some hf, ?_⟩
      have hp := List.find?_some hf
      simp [hp]

/-- A quality test referencing a batch id for which no collection
transaction exists; its numeric fields satisfy the thresholds, so the
backend service accepts it. -/
def qOrphan : QualityTest :=
  { id := "TEST_7", batchID := "BATCH_B", dna := "ATCGATCGATCG",
    pesticide := mkRat 5 100, moisture := 12, heavyMetals := some (mkRat 1 100),
    labName := "Some Lab", labId := "LAB_7",
    verified := true, status := .PASSED, warnings := [] }

/-- A reachable ledger (genesis plus one accepted quality test) in which
batch "BATCH_B" is referenced by a quality test but by no collection. -/
def ledgerOrphan : Ledger := runSubmits heC ledger0 [(env1, .quality_test qOrphan)]

/-- C2 counterexample: in a reachable ledger holding no Collection
transaction at all but a quality test referencing "BATCH_B", the backend
`getProvenance` does NOT return NotFound — it returns a bundle whose
farmer slot is null — refuting the claimed "NotFound iff no Collection
transaction with that identifier". -/
theorem c2_counterexample_orphan_bundle :
    ledgerOrphan.transactions.all (fun tx => !isCollectionTx tx) = true ∧
    getProvenance ledgerOrphan "BATCH_B" ≠ none ∧
    ((getProvenance ledgerOrphan "BATCH_B").getD default).farmer = none := by
  decide

/-- C2 witness: the backend characterization applied to a concrete
ledger and an unknown batch id — it evaluates to NotFound. -/
theorem c2_notfound_witness :
    getProvenance ledgerOrphan "BATCH_NOWHERE" = none :=
  (c2_notfound_characterization ledgerOrphan { transactions := [] }
    "BATCH_NOWHERE" "t9").1.mpr (by decide)

/-- C3 theorem (amended): when two or more QualityTest (respectively
Processing) transactions reference the same batch id, `getProvenance`
selects the EARLIEST appended matching transaction — `Array.find` /
`List.find?` returns the first hit, not the last — for the bundle's lab
(respectively processor) slot. -/
theorem find?_filter_and {α : Type} (p q : α → Bool) (xs : List α) :
    (xs.filter p).find? q = xs.find? (fun a => p a && q a) := by
  induction xs with
  | nil => rfl
  | cons x xs ih =>
    by_cases hp : p x
    · rw [List.filter_cons_of_pos hp]
      by_cases hq : q x
      · simp [List.find?_cons, hp, hq]
      · simp [List.find?_cons, hp, hq, ih]
    · rw [List.filter_cons_of_neg hp]
      simp only [List.find?_cons]
      rw [show (p x && q x) = false by simp [hp]]
      exact ih

theorem c3_first_match_selected (l : Ledger) (b : String) (prov : ProvenanceBundle)
    (h : getProvenance l b = some prov) :
    prov.lab =
      (l.transactions.find? (fun tx => matchesBatch b tx && isQualityTx tx)).bind qualData ∧
    prov.processor =
      (l.transactions.find? (fun tx => matchesBatch b tx && isProcessingTx tx)).bind procData := by
  obtain ⟨-, hlab, hproc⟩ := getProvenance_some_fields h
  rw [find?_filter_and] at hlab hproc
  exact ⟨hlab, hproc⟩

/-- A Tulsi collection creating batch "BATCH_B". -/
def cB : CollectionEvent :=
  { id := "BATCH_B", species := "Tulsi", gps := { lat := 20, lng := 20 },
    month := 11, moisture := 12, farmerName := "Farmer", farmerId := "F1" }

/-- First quality test for "BATCH_B" (lab "LabOne"). -/
def q1d : QualityTest :=
  { qOrphan with id := "TEST_A", labName := "LabOne", labId := "LAB_A" }

/-- Second, later quality test for "BATCH_B" (lab "LabTwo"). -/
def q2d : QualityTest :=
  { qOrphan with id := "TEST_B", labName := "LabTwo", labId := "LAB_B" }

/-- A reachable ledger in which two quality tests reference "BATCH_B",
appended in the order `q1d` then `q2d`. -/
def ledgerTwoTests : Ledger :=
  runSubmits heC ledger0
    [(env1, .collection cB), (env2, .quality_test q1d), (env3, .quality_test q2d)]

/-- C3 counterexample: with two quality tests for the same batch, the
bundle's lab slot holds the FIRST appended test (`q1d`), although the
most recently appended matching quality test is the distinct `q2d` —
refuting "selects the most recently appended matching transaction". -/
theorem c3_counterexample_first_not_latest :
    ((getProvenance ledgerTwoTests "BATCH_B").getD default).lab = some q1d ∧
    q1d ≠ q2d ∧
    (ledgerTwoTests.transactions.reverse.find?
      (fun tx => matchesBatch "BATCH_B" tx && isQualityTx tx)).bind qualData = some q2d := by
  decide

/-- C3 witness: the amended selection rule applied to the concrete
two-test ledger. -/
theorem c3_first_match_witness :
    ((getProvenance ledgerTwoTests "BATCH_B").getD default).lab =
      (ledgerTwoTests.transactions.find?
        (fun tx => matchesBatch "BATCH_B" tx && isQualityTx tx)).bind qualData :=
  (c3_first_match_selected ledgerTwoTests "BATCH_B"
    ((getProvenance ledgerTwoTests "BATCH_B").getD default) (by decide)).1

/-- A quality test whose batch id matches no collection anywhere. -/
def qGhost : QualityTest :=
  { qOrphan with id := "TEST_9", batchID := "BATCH_GHOST" }

/-- C4 counterexample: on the freshly initialized ledger (which contains
no Collection transaction at all), submitting a quality test for the
unknown batch "BATCH_GHOST" through the service SUCCEEDS and appends a
transaction — the core `validateQualityTest` never checks batch
existence — refuting the claim for the service's submit interface. -/
theorem c4_counterexample_core_accepts_unknown_batch :
    ledger0.transactions.all (fun tx => !isCollectionTx tx) = true ∧
    (submitTransaction heC env1 ledger0 (.quality_test qGhost)).2 =
      Except.ok { transactionId := "tx1", status := "COMMITTED",
                  hash := "H", timestamp := "t1" } ∧
    (submitTransaction heC env1 ledger0 (.quality_test qGhost)).1.transactions.length =
      ledger0.transactions.length + 1 := by
  decide

/-- C4 theorem (amended): the batch-existence rule is enforced one layer
up, by the lab upload route, not by the core validator.  First conjunct:
the core's verdict on a quality test does not depend on the ledger at
all (so it cannot check batch existence).  Second conjunct: the upload
route rejects any schema-valid quality test whose batch id matches no
Collection transaction with a 404 "Batch not found" and leaves the
ledger exactly unchanged. -/
theorem c4_batch_existence_checked_at_route :
    (∀ (l l' : Ledger) (q : QualityTest),
       validateTransaction l (.quality_test q) = validateTransaction l' (.quality_test q)) ∧
    (∀ (he : HashEnv) (env : Env) (testId : String) (l : Ledger) (p : LabUploadReq),
       labSchemaOk p = true →
       (∀ tx ∈ l.transactions, isCollectionFor p.batchID tx = false) →
       labUpload he env testId l p = (l, .error (.notFound "Batch not found"))) := by
  constructor
  · intro l l' q
    rfl
  · intro he env testId l p hschema hnone
    have hfarm : ∀ prov, getProvenance l p.batchID = some prov → prov.farmer = none := by
      intro prov hp
      have h1 := (getProvenance_some_fields hp).1
      rw [find?_filter_and] at h1
      have hfind : l.transactions.find?
          (fun tx => matchesBatch p.batchID tx && isCollectionTx tx) = none := by
        rw [List.find?_eq_none]
        intro x hx
        have hxno := hnone x hx
        cases hdata : x.data with
        | collection c =>
          simp only [isCollectionFor, hdata] at hxno
          simp [matchesBatch, isCollectionTx, hdata, hxno]
        | quality_test q => simp [isCollectionTx, hdata]
        | processing pr => simp [isCollectionTx, hdata]
        | genesis => simp [isCollectionTx, hdata]
      rw [hfind] at h1
      exact h1
    unfold labUpload
    rw [hschema]
    have hfo : (match getProvenance l p.batchID with
        | none => false
        | some prov => prov.farmer.isSome) = false := by
      cases hgp : getProvenance l p.batchID with
      | none => rfl
      | some prov => simp [hfarm prov hgp]
    rw [hfo]
    simp

/-- The ghost-batch upload request (schema-valid, unknown batch). -/
def pGhostReq : LabUploadReq :=
  { labReqGood with batchID := "BATCH_GHOST" }

/-- C4 witness: the route-level rejection applied to the concrete fresh
ledger and a schema-valid upload for an unknown batch. -/
theorem c4_route_rejects_witness :
    labUpload heC env1 "TEST_9" ledger0 pGhostReq =
      (ledger0, .error (.notFound "Batch not found")) :=
  c4_batch_existence_checked_at_route.2 heC env1 "TEST_9" ledger0 pGhostReq
    (by decide) (by decide)

/-- A quality test for "BATCH_B" whose stored derived status is failing
(`verified = false`).  Its numeric fields satisfy the thresholds, so the
core service accepts it when submitted as raw client data. -/
def qFailB : QualityTest :=
  { qOrphan with verified := false, status := .FAILED }

/-- A reachable ledger whose only quality test for "BATCH_B" is not a
passing one. -/
def ledgerFailedTest : Ledger := runSubmits heC ledger0 [(env1, .quality_test qFailB)]

/-- A processing step submission for "BATCH_B". -/
def pForB : ProcessingStep :=
  { id := "PROC_5", batchID := "BATCH_B"
    drying := .inProgress, grinding := .pending, packaging := .pending
    processorName := "ProcCo", processorId := "P1", processDate := "t2", history := [] }

/-- C5 counterexample: the ledger contains no quality test for "BATCH_B"
whose derived status is passing (its only test carries
`verified = false` / status FAILED), yet submitting a processing
transaction for that batch through the service SUCCEEDS and appends —
`validateProcessingStep` checks only that some quality test exists, not
its outcome — refuting the claim for the service's submit interface. -/
theorem c5_counterexample_core_ignores_status :
    ledgerFailedTest.transactions.all (fun tx => !isPassingQualityFor "BATCH_B" tx) = true ∧
    (submitTransaction heC env2 ledgerFailedTest (.processing pForB)).2 =
      Except.ok { transactionId := "tx2", status := "COMMITTED",
                  hash := "H", timestamp := "t2" } ∧
    (submitTransaction heC env2 ledgerFailedTest (.processing pForB)).1.transactions.length =
      ledgerFailedTest.transactions.length + 1 := by
  decide

/-- C5 theorem (amended): the core validator accepts a processing
transaction exactly when SOME quality-test transaction for the batch
exists, regardless of its derived status; the passing-status requirement
is enforced only by the processor route, which — when the ledger holds
no quality test for the batch whose `verified` flag is set — rejects the
update with an error response and leaves the ledger unchanged. -/
theorem c5_processing_requires_test_existence_only :
    (∀ (l : Ledger) (p : ProcessingStep),
       (validateProcessingStep l p).valid = true ↔
       ∃ tx ∈ l.transactions, isQualityFor p.batchID tx = true) ∧
    (∀ (he : HashEnv) (env : Env) (newProcId : String) (l : Ledger) (r : UpdateReq),
       (∀ tx ∈ l.transactions, isPassingQualityFor r.batchID tx = false) →
       (updateStatus he env newProcId l r).1 = l ∧
       isErr (updateStatus he env newProcId l r).2 = true) := by
  constructor
  · intro l p
    unfold validateProcessingStep
    cases hf : l.transactions.find? (isQualityFor p.batchID) with
    | none =>
      simp only [Bool.false_eq_true, false_iff]
      rintro ⟨tx, htx, hq⟩
      exact absurd hq (by simpa using List.find?_eq_none.mp hf tx htx)
    | some tx =>
      simp only [true_iff]
      exact ⟨tx, List.mem_of_find?_eq_some hf, List.find?_some hf⟩
  · intro he env newProcId l r hnone
    unfold updateStatus
    by_cases hs : updSchemaOk r
    · rw [if_neg (by simp [hs])]
      split
      · exact ⟨rfl, rfl⟩
      · rename_i prov hgp
        have hfields := (getProvenance_some_fields hgp).2.1
        rw [find?_filter_and] at hfields
        have hlab : (match prov.lab with
            | some q => q.verified
            | none => false) = false := by
          cases hl : prov.lab with
          | none => rfl
          | some q =>
            rw [hl] at hfields
            obtain ⟨tx, hftx, hqd⟩ := Option.bind_eq_some.mp hfields.symm
            have hmem := List.mem_of_find?_eq_some hftx
            have hp := List.find?_some hftx
            have hpass := hnone tx hmem
            obtain ⟨tid, tdata, tts, th, tph⟩ := tx
            cases tdata with
            | quality_test q' =>
              simp only [qualData, Option.some.injEq] at hqd
              subst hqd
              simp only [matchesBatch, isQualityTx, Bool.and_true] at hp
              simp only [isPassingQualityFor] at hpass
              rw [hp] at hpass
              simpa using hpass
            | collection c => simp [qualData] at hqd
            | processing pr => simp [qualData] at hqd
            | genesis => simp [qualData] at hqd
        rw [hlab]
        exact ⟨rfl, rfl⟩
    · rw [if_pos (by simp [hs])]
      exact ⟨rfl, rfl⟩

/-- A processing update request for a batch absent from the ledger. -/
def rX : UpdateReq :=
  { batchID := "BATCH_X", step := .grinding, status := .inProgress,
    processorId := "P1", processorName := "ProcName" }

/-- C5 witness: the route-level rejection applied to the fresh concrete
ledger, which holds no passing quality test for "BATCH_X". -/
theorem c5_processing_gate_witness :
    (updateStatus heC env1 "PROC_9" ledger0 rX).1 = ledger0 ∧
    isErr (updateStatus heC env1 "PROC_9" ledger0 rX).2 = true :=
  c5_processing_requires_test_existence_only.2 heC env1 "PROC_9" ledger0 rX (by decide)

/-- C6 theorem: the processor route enforces the drying, grinding,
packaging ordering.  First conjunct: whenever a status update is
accepted, either the step is the first stage (no predecessor gate) or
its predecessor stage is already completed in the processing state the
route validates against (the bundle's processing record or the fresh
all-pending one).  Second conjunct: a grinding update submitted while
drying is not completed in that state — with the earlier gates passing —
is rejected with a 400 whose message cites the missing predecessor
stage, and the ledger is left unchanged. -/
theorem c6_stage_ordering :
    (∀ (he : HashEnv) (env : Env) (newProcId : String) (l l' : Ledger) (r : UpdateReq)
       (resp : UpdateResp),
       updateStatus he env newProcId l r = (l', Except.ok resp) →
       r.step = Step.drying ∨
       ∃ prev, predStep r.step = some prev ∧
         stageOf (routeProcState newProcId env l r) prev = StageStatus.completed) ∧
    (∀ (he : HashEnv) (env : Env) (newProcId : String) (l : Ledger) (r : UpdateReq),
       updSchemaOk r = true →
       qualityGateOk l r.batchID = true →
       r.step = Step.grinding →
       (routeProcState newProcId env l r).drying ≠ StageStatus.completed →
       updateStatus he env newProcId l r =
         (l, .error (.badRequest "Cannot start grinding before completing drying"))) := by
  constructor
  · intro he env newProcId l l' r resp h
    unfold updateStatus at h
    split at h
    · exact absurd h (by simp)
    · split at h
      · exact absurd h (by simp)
      · rename_i prov hgp
        split at h
        · exact absurd h (by simp)
        · have hps : prov.processor.getD (freshProcessing newProcId env r) =
              routeProcState newProcId env l r := by
            unfold routeProcState
            rw [hgp]
          split at h
          · rename_i prev hprev
            dsimp only at h
            split at h
            · exact absurd h (by simp)
            · rename_i hstage
              right
              refine ⟨prev, hprev, ?_⟩
              rw [← hps]
              simpa using hstage
          · rename_i hprev
            left
            cases hr : r.step with
            | drying => rfl
            | grinding => rw [hr] at hprev; simp [predStep] at hprev
            | packaging => rw [hr] at hprev; simp [predStep] at hprev
  · intro he env newProcId l r hs hq hstep hnd
    unfold qualityGateOk at hq
    unfold routeProcState at hnd
    unfold updateStatus
    rw [if_neg (by simp [hs])]
    cases hgp : getProvenance l r.batchID with
    | none => rw [hgp] at hq; exact absurd hq (by simp)
    | some prov =>
      rw [hgp] at hq hnd
      have hq' : (match prov.lab with
          | some q => q.verified
          | none => false) = true := hq
      have hnd' : (prov.processor.getD (freshProcessing newProcId env r)).drying ≠
          StageStatus.completed := hnd
      split
      · rename_i hgp2
        simp at hgp2
      · rename_i prov2 hgp2
        injection hgp2 with hpv
        subst hpv
        rw [hq']
        rw [if_neg (by simp)]
        simp only [hstep, predStep, stageOf]
        rw [if_pos hnd']
        rfl

/-- A collection creating batch "BATCH_B6". -/
def cB6 : CollectionEvent := { cB with id := "BATCH_B6" }

/-- A passing quality test for "BATCH_B6". -/
def qGood6 : QualityTest :=
  { qOrphan with id := "TEST_6", batchID := "BATCH_B6" }

/-- A reachable ledger where "BATCH_B6" is collected and quality-passed
but has no processing transaction yet (so the route validates against
the fresh all-pending record). -/
def ledgerC6 : Ledger :=
  runSubmits heC ledger0 [(env1, .collection cB6), (env2, .quality_test qGood6)]

/-- The out-of-order grinding update request. -/
def rGrind : UpdateReq :=
  { batchID := "BATCH_B6", step := .grinding, status := .inProgress,
    processorId := "P1", processorName := "ProcCo" }

/-- C6 witness: on the concrete ledger where drying is still pending, the
grinding update is rejected with the message citing drying. -/
theorem c6_stage_ordering_witness :
    updateStatus heC env3 "PROC_1" ledgerC6 rGrind =
      (ledgerC6, .error (.badRequest "Cannot start grinding before completing drying")) :=
  c6_stage_ordering.2 heC env3 "PROC_1" ledgerC6 rGrind
    (by decide) (by decide) rfl (by decide)

/-- C10 theorem: the frontend simulation service's `submitTransaction`
validates nothing: for every type tag and payload it appends exactly one
transaction at the end of the log, preserves all earlier transactions
and returns the generated id — and this includes collections that
violate the geo-fence, since `validateGeoFence` (shown failing on the
out-of-region Ashwagandha fixture) is never consulted on the submit
path. -/
theorem c10_frontend_submit_never_validates :
    (∀ (stringify : TxData → String) (env : Env) (st : Frontend.FState)
       (ty : Frontend.TxType) (d : TxData),
       ((Frontend.submitTransaction stringify env st ty d).1.transactions.length =
         st.transactions.length + 1) ∧
       ((Frontend.submitTransaction stringify env st ty d).1.transactions.take
         st.transactions.length = st.transactions) ∧
       (Frontend.submitTransaction stringify env st ty d).2 = env.txId) ∧
    Frontend.validateGeoFence cAshBad.gps cAshBad.species = false := by
  refine ⟨fun stringify env st ty d => ⟨?_, ?_, rfl⟩, by decide⟩
  · simp [Frontend.submitTransaction]
  · simp [Frontend.submitTransaction]
